import Mathlib

/-!
Shallow embedding of the identity-service OAuth2 core
(`src/identity_service`): domain entities, the JWT adapter, the password
hasher, and the `OAuth2Service` grant flows, with the repositories and the
cache modelled as explicit state.  Machine details that live in external
libraries (bcrypt, SHA-256, RSA signatures) are modelled as abstract
function parameters; everything the repository's own code computes is
embedded concretely.

Conventions:
- UUIDs are `Nat`.
- UTC instants are `Nat` seconds.
- Token strings are a type parameter `σ` (with decidable equality); for
  claims about the composed system `σ` is instantiated with the `Jwt`
  model of the JWT adapter.
- Fallible operations return `Option`.
- Stateful flows return `(result, post-state, trace)` where the trace
  lists the repository / cache operations in execution order.
-/

namespace IdentityService

/-! ### base64url without padding

Embeds `base64.urlsafe_b64encode(...).decode().rstrip("=")` as used by
`AuthorizationCode.validate_pkce` (src/identity_service/domain/entities).
Bytes are `Nat` values below 256. -/

/-- One character of the URL-safe base64 alphabet (RFC 4648 §5). -/
def b64Char (n : Nat) : Char :=
  if n < 26 then Char.ofNat (65 + n)
  else if n < 52 then Char.ofNat (97 + (n - 26))
  else if n < 62 then Char.ofNat (48 + (n - 52))
  else if n = 62 then Char.ofNat 45
  else Char.ofNat 95

/-- Encode a byte list in 3-byte groups; the final partial group is
emitted without the `=` padding that `rstrip("=")` removes. -/
def b64urlChunks : List Nat → List Char
  | [] => []
  | [b1] => [b64Char (b1 / 4), b64Char (b1 % 4 * 16)]
  | [b1, b2] =>
      [b64Char (b1 / 4), b64Char (b1 % 4 * 16 + b2 / 16), b64Char (b2 % 16 * 4)]
  | b1 :: b2 :: b3 :: rest =>
      b64Char (b1 / 4) :: b64Char (b1 % 4 * 16 + b2 / 16) ::
        b64Char (b2 % 16 * 4 + b3 / 64) :: b64Char (b3 % 64) :: b64urlChunks rest

/-- `base64url_nopad` over a byte list. -/
def b64urlNopad (bs : List Nat) : String := String.mk (b64urlChunks bs)

/-! ### UTF-8 encoding

Needed to embed the byte-level truncation performed by the bcrypt layer
underneath `UserService.hash_password` / `verify_password`.  A Python
string is modelled as its list of code points. -/

/-- Standard UTF-8 byte encoding of one code point (1 to 4 bytes; always
at least one byte). -/
def utf8EncodeChar (c : Nat) : List Nat :=
  if c < 0x80 then [c]
  else if c < 0x800 then [0xC0 + c / 0x40, 0x80 + c % 0x40]
  else if c < 0x10000 then
    [0xE0 + c / 0x1000, 0x80 + c / 0x40 % 0x40, 0x80 + c % 0x40]
  else
    [0xF0 + c / 0x40000, 0x80 + c / 0x1000 % 0x40, 0x80 + c / 0x40 % 0x40,
      0x80 + c % 0x40]

/-- UTF-8 byte encoding of a whole string (list of code points). -/
def utf8Encode : List Nat → List Nat
  | [] => []
  | c :: cs => utf8EncodeChar c ++ utf8Encode cs

/-! ### Domain entities (src/identity_service/domain/entities/__init__.py) -/

/-- `User` entity (the fields the grant flows consult). -/
structure User where
  id : Nat
  username : String
  hashed_password : String
  is_active : Bool
deriving DecidableEq, Repr

/-- `Client` entity. -/
structure Client where
  id : Nat
  client_secret_hash : String
  redirect_uris : List String
  grant_types : List String
  scopes : List String
  is_confidential : Bool
  is_active : Bool
deriving DecidableEq, Repr

/-- `Client.validate_grant_type`: membership of the grant type in the
client's `grant_types`. -/
def Client.validate_grant_type (c : Client) (grant_type : String) : Bool :=
  c.grant_types.contains grant_type

/-- `Token` entity; `σ` is the type of token strings. -/
structure Token (σ : Type) where
  id : Nat
  user_id : Nat
  client_id : Nat
  access_token : σ
  token_type : String
  expires_at : Nat
  scopes : List String
  refresh_token : Option σ
deriving DecidableEq, Repr

/-- `Token.is_expired`: `datetime.now(timezone.utc) > self.expires_at`
(strict inequality). -/
def Token.is_expired {σ : Type} (t : Token σ) (now : Nat) : Bool :=
  now > t.expires_at

/-- `AuthorizationCode` entity. -/
structure AuthorizationCode where
  id : Nat
  code : String
  client_id : Nat
  user_id : Option Nat
  redirect_uri : String
  scopes : List String
  code_challenge : Option String
  code_challenge_method : Option String
  expires_at : Nat
  is_used : Bool
deriving DecidableEq, Repr

/-- `AuthorizationCode.is_expired`: `now > expires_at` (strict). -/
def AuthorizationCode.is_expired (ac : AuthorizationCode) (now : Nat) : Bool :=
  now > ac.expires_at

/-- `AuthorizationCode.validate_pkce`.  `sha256` abstracts
`hashlib.sha256(verifier.encode()).digest()` (a 32-byte digest).  The
Python guard `if not self.code_challenge: return True` is truthiness: it
fires for `None` and for the empty string alike. -/
def AuthorizationCode.validate_pkce (sha256 : String → List Nat)
    (ac : AuthorizationCode) (code_verifier : String) : Bool :=
  match ac.code_challenge with
  | none => true
  | some ch =>
    if ch = "" then true
    else if ac.code_challenge_method = some "S256" then
      b64urlNopad (sha256 code_verifier) = ch
    else if ac.code_challenge_method = some "plain" then
      code_verifier = ch
    else false

/-! ### JWT adapter (src/identity_service/adapters/jwt/__init__.py)

`JWTTokenService.verify_token` runs `authlib.jose.jwt.decode(token,
public_key)` followed by `claims.validate()`.  The claim set is modelled
as the record this service mints (`sub`, `client_id`, `scopes`, `iss`,
`exp`, `iat`, `type`); a token whose payload does not parse to such a
record is malformed.  `jwt.decode` raises `JoseError` on a malformed
token or a bad signature; `claims.validate()` with the default (empty)
claims options validates only the time-based claims — `exp` is rejected
iff `exp < now` (authlib `validate_exp` uses strict `<` with zero
leeway).  No `claims_options` are passed, so the `iss` claim is never
compared against anything. -/

/-- The decoded claim set of a token minted by this service. -/
structure Claims where
  sub : Nat
  client_id : Nat
  scopes : List String
  iss : String
  exp : Nat
  iat : Nat
  typ : String
deriving DecidableEq, Repr

/-- A token string, modelled by its parse: whether the payload is
well-formed, whether the signature verifies against the service's public
key, and the carried claims. -/
structure Jwt where
  wellFormed : Bool
  sigValid : Bool
  claims : Claims
deriving DecidableEq, Repr

/-- The configuration of `JWTTokenService.__init__` that
`verify_token` could consult (the issuer string). -/
structure JWTConfig where
  issuer : String
deriving DecidableEq, Repr

namespace JWTTokenService

/-- Embeds `JWTTokenService.verify_token`.  The `cfg` parameter mirrors
`self`; note that, like the source, the body never consults
`cfg.issuer`. -/
def verify_token (cfg : JWTConfig) (now : Nat) (t : Jwt) : Option Claims :=
  if !t.wellFormed then none
  else if !t.sigValid then none
  else if t.claims.exp < now then none
  else some t.claims

end JWTTokenService

/-! ### Repositories and cache as explicit state

The PostgreSQL repositories (src/identity_service/adapters/postgres/
repositories.py) are modelled over lists of rows; the Redis cache over a
list of entries keyed by the token value (the Python cache key is the
constant prefix `token:introspect:` followed by the token, an injective
mapping, so the token itself serves as the key).  A trace event records
each durable-store / cache mutation or lookup that the claims reason
about, in execution order. -/

/-- The durable and cached state visible to `OAuth2Service`. -/
structure St (σ : Type) where
  clients : List Client
  users : List User
  tokens : List (Token σ)
  authCodes : List AuthorizationCode
  cache : List (σ × String)
deriving Repr

/-- Store operations, logged in execution order. -/
inductive Event (σ : Type) where
  | dbRevokeToken (id : Nat)
  | dbCreateToken (id : Nat)
  | dbMarkUsed (id : Nat)
  | dbDeleteCode (id : Nat)
  | cacheSet (key : σ)
  | cacheDelete (key : σ)
deriving DecidableEq, Repr

variable {σ : Type} [DecidableEq σ]

/-- `ClientRepository.get_by_id`. -/
def getClientById (s : St σ) (client_id : Nat) : Option Client :=
  s.clients.find? (fun c => c.id == client_id)

/-- `UserRepository.get_by_username`. -/
def getUserByUsername (s : St σ) (username : String) : Option User :=
  s.users.find? (fun u => u.username == username)

/-- `TokenRepository.get_by_access_token`. -/
def getByAccessToken (s : St σ) (access_token : σ) : Option (Token σ) :=
  s.tokens.find? (fun t => t.access_token == access_token)

/-- `TokenRepository.get_by_refresh_token`. -/
def getByRefreshToken (s : St σ) (refresh_token : σ) : Option (Token σ) :=
  s.tokens.find? (fun t => t.refresh_token == some refresh_token)

/-- `TokenRepository.create`: inserts the row. -/
def createTokenSt (s : St σ) (t : Token σ) : St σ :=
  ⟨s.clients, s.users, s.tokens ++ [t], s.authCodes, s.cache⟩

/-- `TokenRepository.revoke`: deletes the row with the given primary
key (no-op when absent). -/
def revokeTokenSt (s : St σ) (token_id : Nat) : St σ :=
  ⟨s.clients, s.users, s.tokens.filter (fun t => t.id ≠ token_id),
    s.authCodes, s.cache⟩

/-- `AuthorizationCodeRepository.get_by_code`. -/
def getByCode (s : St σ) (code : String) : Option AuthorizationCode :=
  s.authCodes.find? (fun ac => ac.code == code)

/-- `AuthorizationCodeRepository.mark_as_used`: sets `is_used = true` on
the row with the given primary key. -/
def markAsUsedSt (s : St σ) (code_id : Nat) : St σ :=
  ⟨s.clients, s.users, s.tokens,
    s.authCodes.map (fun ac =>
      if ac.id = code_id then
        ⟨ac.id, ac.code, ac.client_id, ac.user_id, ac.redirect_uri,
          ac.scopes, ac.code_challenge, ac.code_challenge_method,
          ac.expires_at, true⟩
      else ac),
    s.cache⟩

/-- `AuthorizationCodeRepository.delete`. -/
def deleteCodeSt (s : St σ) (code_id : Nat) : St σ :=
  ⟨s.clients, s.users, s.tokens,
    s.authCodes.filter (fun ac => ac.id ≠ code_id), s.cache⟩

/-- `CachePort.get`. -/
def cacheGet (s : St σ) (key : σ) : Option String :=
  (s.cache.find? (fun e => e.1 == key)).map (fun e => e.2)

/-- `CachePort.set` (the TTL argument governs expiry inside Redis and is
not part of the logical state). -/
def cacheSetSt (s : St σ) (key : σ) (value : String) : St σ :=
  ⟨s.clients, s.users, s.tokens, s.authCodes,
    s.cache.filter (fun e => e.1 ≠ key) ++ [(key, value)]⟩

/-- `CachePort.delete`. -/
def cacheDeleteSt (s : St σ) (key : σ) : St σ :=
  ⟨s.clients, s.users, s.tokens, s.authCodes,
    s.cache.filter (fun e => e.1 ≠ key)⟩

/-! ### User and client authentication

`verify_secret` / `verify_password` call bcrypt through passlib; the
comparison of a plaintext against a stored hash is abstracted as a
boolean function parameter. -/

/-- Embeds `ClientService.authenticate_client`: look up by id, reject
inactive clients, reject on secret mismatch. -/
def authenticate_client (verify_secret : String → String → Bool)
    (s : St σ) (client_id : Nat) (client_secret : String) : Option Client :=
  match getClientById s client_id with
  | none => none
  | some client =>
    if !client.is_active then none
    else if !(verify_secret client_secret client.client_secret_hash) then none
    else some client

/-- Embeds `UserService.authenticate_user`: look up by username, reject
on password mismatch, reject inactive users. -/
def authenticate_user (verify_password : String → String → Bool)
    (s : St σ) (username password : String) : Option User :=
  match getUserByUsername s username with
  | none => none
  | some user =>
    if !(verify_password password user.hashed_password) then none
    else if !user.is_active then none
    else some user

/-! ### Token service port (src/identity_service/ports/tokens)

The grant flows receive the token service by injection; it is modelled
as a record of its three operations.  The JWT adapter above provides the
`verify` component when the composed system is considered. -/

/-- The injected `TokenService` operations. -/
structure TokenSvc (σ : Type) where
  createAccess : Nat → Nat → List String → σ × Nat
  createRefresh : Nat → Nat → List String → σ
  verify : σ → Option Claims

/-! ### OAuth2Service grant flows
(src/identity_service/application/use_cases/oauth2_service.py)

Each flow takes the abstract hash comparators, the token service, a
fresh primary key for any token row it creates (`uuid4` in the source),
the current instant, and the state; it returns its Python return value,
the post-state, and the trace of store operations. -/

/-- Embeds `OAuth2Service.password_grant`.  `scopes or client.scopes` is
Python truthiness: the requested list is used verbatim when non-empty,
otherwise the client's scopes. -/
def password_grant (verify_secret verify_password : String → String → Bool)
    (tsvc : TokenSvc σ) (freshId : Nat) (s : St σ)
    (username password : String) (client_id : Nat) (client_secret : String)
    (scopes : Option (List String)) : Option (Token σ) × St σ :=
  match authenticate_client verify_secret s client_id client_secret with
  | none => (none, s)
  | some client =>
    if !client.validate_grant_type "password" then (none, s)
    else
      match authenticate_user verify_password s username password with
      | none => (none, s)
      | some user =>
        let token_scopes :=
          match scopes with
          | none => client.scopes
          | some l => if l = [] then client.scopes else l
        let minted := tsvc.createAccess user.id client.id token_scopes
        let refresh_tok := tsvc.createRefresh user.id client.id token_scopes
        let token : Token σ :=
          ⟨freshId, user.id, client.id, minted.1, "Bearer", minted.2,
            token_scopes, some refresh_tok⟩
        (some token, createTokenSt s token)

/-- Embeds `OAuth2Service.refresh_token_grant`.  Note: the old row is
looked up by the presented refresh token alone; nothing compares its
`client_id` with the requesting client. -/
def refresh_token_grant (verify_secret : String → String → Bool)
    (tsvc : TokenSvc σ) (freshId : Nat) (s : St σ)
    (refresh_token : σ) (client_id : Nat) (client_secret : String) :
    Option (Token σ) × St σ × List (Event σ) :=
  match authenticate_client verify_secret s client_id client_secret with
  | none => (none, s, [])
  | some client =>
    if !client.validate_grant_type "refresh_token" then (none, s, [])
    else
      match tsvc.verify refresh_token with
      | none => (none, s, [])
      | some payload =>
        if payload.typ ≠ "refresh" then (none, s, [])
        else
          match getByRefreshToken s refresh_token with
          | none => (none, s, [])
          | some existing =>
            let s1 := revokeTokenSt s existing.id
            let minted := tsvc.createAccess payload.sub client.id payload.scopes
            let new_refresh := tsvc.createRefresh payload.sub client.id payload.scopes
            let token : Token σ :=
              ⟨freshId, payload.sub, client.id, minted.1, "Bearer", minted.2,
                payload.scopes, some new_refresh⟩
            (some token, createTokenSt s1 token,
              [Event.dbRevokeToken existing.id, Event.dbCreateToken freshId])

/-- The value returned by `introspect_token`: either the inactive dict,
the bare active dict served from cache, or the full active payload. -/
inductive IntrospectionResult where
  | inactive
  | activeCached
  | activeFull (scope : String) (client_id : Nat) (username : Nat)
      (exp : Nat) (iat : Nat) (sub : Nat)
deriving DecidableEq, Repr

/-- Whether the returned dict carries `active: true`. -/
def IntrospectionResult.isActive : IntrospectionResult → Bool
  | .inactive => false
  | _ => true

/-- Embeds `OAuth2Service.introspect_token`.  A cached entry short-cuts
to the bare active dict (entries hold the truthy string "1"); otherwise
the token is verified, the row looked up, `is_expired` consulted, and
the positive result cached only when the remaining lifetime is
positive. -/
def introspect_token (tsvc : TokenSvc σ) (now : Nat) (s : St σ) (token : σ) :
    IntrospectionResult × St σ × List (Event σ) :=
  match cacheGet s token with
  | some _ => (.activeCached, s, [])
  | none =>
    match tsvc.verify token with
    | none => (.inactive, s, [])
    | some payload =>
      match getByAccessToken s token with
      | none => (.inactive, s, [])
      | some token_entity =>
        if token_entity.is_expired now then (.inactive, s, [])
        else
          let ttl := token_entity.expires_at - now
          let s1 := if ttl > 0 then cacheSetSt s token "1" else s
          let tr := if ttl > 0 then [Event.cacheSet token] else ([] : List (Event σ))
          (.activeFull (String.intercalate " " payload.scopes) payload.client_id
              payload.sub payload.exp payload.iat payload.sub, s1, tr)

/-- Embeds `OAuth2Service.revoke_token`: hint-directed lookup with
fallback; an unknown token is reported as success; for a found row the
cache entry is deleted and then the database row is deleted. -/
def revoke_token (s : St σ) (token : σ) (token_type_hint : Option String) :
    Bool × St σ × List (Event σ) :=
  let token_entity :=
    if token_type_hint = some "refresh_token" then
      match getByRefreshToken s token with
      | some te => some te
      | none => getByAccessToken s token
    else
      match getByAccessToken s token with
      | some te => some te
      | none => getByRefreshToken s token
  match token_entity with
  | none => (true, s, [])
  | some te =>
    let s1 := cacheDeleteSt s token
    let found := (s1.tokens.find? (fun t => t.id == te.id)).isSome
    let s2 := revokeTokenSt s1 te.id
    (found, s2, [Event.cacheDelete token, Event.dbRevokeToken te.id])

/-- The PKCE block of `authorization_code_grant`, following the
source's truthiness checks: it is entered only when the stored challenge
is non-null and non-empty, and then an absent or empty verifier is
rejected before `validate_pkce` runs. -/
def pkceGate (sha256 : String → List Nat) (ac : AuthorizationCode)
    (code_verifier : Option String) : Bool :=
  match ac.code_challenge with
  | none => true
  | some ch =>
    if ch = "" then true
    else
      match code_verifier with
      | none => false
      | some v => if v = "" then false else ac.validate_pkce sha256 v

/-- Embeds `OAuth2Service.authorization_code_grant`. -/
def authorization_code_grant (verify_secret : String → String → Bool)
    (sha256 : String → List Nat) (tsvc : TokenSvc σ) (now freshId : Nat)
    (s : St σ) (code : String) (client_id : Nat) (client_secret : String)
    (redirect_uri : String) (code_verifier : Option String) :
    Option (Token σ) × St σ × List (Event σ) :=
  match authenticate_client verify_secret s client_id client_secret with
  | none => (none, s, [])
  | some client =>
    if !client.validate_grant_type "authorization_code" then (none, s, [])
    else
      match getByCode s code with
      | none => (none, s, [])
      | some auth_code =>
        if auth_code.is_expired now then
          (none, deleteCodeSt s auth_code.id, [Event.dbDeleteCode auth_code.id])
        else if auth_code.is_used then
          (none, deleteCodeSt s auth_code.id, [Event.dbDeleteCode auth_code.id])
        else if auth_code.client_id ≠ client_id then (none, s, [])
        else if auth_code.redirect_uri ≠ redirect_uri then (none, s, [])
        else
          let pkce_ok : Bool := pkceGate sha256 auth_code code_verifier
          if !pkce_ok then (none, s, [])
          else
            let s1 := markAsUsedSt s auth_code.id
            match auth_code.user_id with
            | none => (none, s1, [Event.dbMarkUsed auth_code.id])
            | some uid =>
              let minted := tsvc.createAccess uid client.id auth_code.scopes
              let refresh_tok := tsvc.createRefresh uid client.id auth_code.scopes
              let token : Token σ :=
                ⟨freshId, uid, client.id, minted.1, "Bearer", minted.2,
                  auth_code.scopes, some refresh_tok⟩
              let s2 := createTokenSt s1 token
              let s3 := deleteCodeSt s2 auth_code.id
              (some token, s3,
                [Event.dbMarkUsed auth_code.id, Event.dbCreateToken freshId,
                  Event.dbDeleteCode auth_code.id])

/-- Embeds `OAuth2Service.client_credentials_grant`: client
authentication, grant-type check, scope defaulting, access token only
(`refresh_token = None`), `user_id` set to the client id. -/
def client_credentials_grant (verify_secret : String → String → Bool)
    (tsvc : TokenSvc σ) (freshId : Nat) (s : St σ)
    (client_id : Nat) (client_secret : String)
    (scopes : Option (List String)) : Option (Token σ) × St σ :=
  match authenticate_client verify_secret s client_id client_secret with
  | none => (none, s)
  | some client =>
    if !client.validate_grant_type "client_credentials" then (none, s)
    else
      let token_scopes :=
        match scopes with
        | none => client.scopes
        | some l => if l = [] then client.scopes else l
      let minted := tsvc.createAccess client.id client.id token_scopes
      let token : Token σ :=
        ⟨freshId, client.id, client.id, minted.1, "Bearer", minted.2,
          token_scopes, none⟩
      (some token, createTokenSt s token)

/-! ### Password hasher (src/identity_service/application/use_cases/user_service.py)

`hash_password` truncates the Python string to its first 72 characters
(`password[:72]`); both `pwd_context.hash` and `pwd_context.verify` then
feed the UTF-8 encoding of their argument to bcrypt, which consumes at
most the first 72 bytes.  `bc` abstracts the bcrypt-with-salt core as a
function of the truncated byte sequence (passlib's `verify` recomputes
the hash with the salt parsed from the stored hash and compares). -/

namespace UserService

/-- Embeds `UserService.hash_password` composed with the byte-level
truncation of the bcrypt layer. -/
def hash_password (bc : List Nat → String) (password : List Nat) : String :=
  bc ((utf8Encode (password.take 72)).take 72)

/-- Embeds `UserService.verify_password` composed with the byte-level
truncation of the bcrypt layer (no character-level truncation on this
path). -/
def verify_password (bc : List Nat → String) (plain_password : List Nat)
    (hashed_password : String) : Bool :=
  bc ((utf8Encode plain_password).take 72) == hashed_password

end UserService

/-! ### Spec-side definitions (for refinement comparison only) -/

/-- Modelled from the spec's words (§4.4.1): effective scopes are the
requested scopes intersected with the client's scopes when the request
is non-empty, else the client's scopes. -/
def specEffectiveScopes (requested : Option (List String))
    (clientScopes : List String) : List String :=
  match requested with
  | none => clientScopes
  | some l =>
    if l = [] then clientScopes else l.filter (fun x => clientScopes.contains x)

/-- The scope defaulting the source actually performs
(`scopes or client.scopes`): the requested list verbatim when non-empty,
else the client's scopes. -/
def sourceEffectiveScopes (requested : Option (List String))
    (clientScopes : List String) : List String :=
  match requested with
  | none => clientScopes
  | some l => if l = [] then clientScopes else l

/-! ### Concrete fixtures used by witnesses and counterexamples -/

/-- A secret comparator that accepts (stands for bcrypt agreeing). -/
def alwaysOk : String → String → Bool := fun _ _ => true

/-- A token service over plain strings with fixed outputs. -/
def dummyTsvc : TokenSvc String :=
  ⟨fun _ _ _ => ("access0", 1000), fun _ _ _ => "refresh0", fun _ => none⟩

/-- A stand-in digest function: any function returning a 32-byte digest
exhibits the behaviour under study (the real SHA-256 also returns 32
bytes, whose base64url encoding is 43 characters and never empty). -/
def sha0 : String → List Nat := fun _ => List.replicate 32 0

/-! ## Theorems -/

/-! ### C10: hash/verify round-trip under truncation -/

theorem utf8Encode_append (a b : List Nat) :
    utf8Encode (a ++ b) = utf8Encode a ++ utf8Encode b := by
  induction a with
  | nil => rfl
  | cons c cs ih => simp [utf8Encode, ih]

theorem one_le_utf8EncodeChar_length (c : Nat) :
    1 ≤ (utf8EncodeChar c).length := by
  unfold utf8EncodeChar
  split_ifs <;> simp

theorem length_le_utf8Encode_length (l : List Nat) :
    l.length ≤ (utf8Encode l).length := by
  induction l with
  | nil => simp [utf8Encode]
  | cons c cs ih =>
    have h := one_le_utf8EncodeChar_length c
    simp only [utf8Encode, List.length_cons, List.length_append]
    omega

/-- Character-level truncation at 72 followed by byte-level truncation
at 72 coincides with byte-level truncation at 72 alone: each code point
encodes to at least one byte, so 72 characters supply at least 72
bytes. -/
theorem utf8_take_truncation (p : List Nat) :
    (utf8Encode (p.take 72)).take 72 = (utf8Encode p).take 72 := by
  rcases le_or_lt p.length 72 with h | h
  · rw [List.take_of_length_le h]
  · have h1 : 72 ≤ (utf8Encode (p.take 72)).length := by
      have h2 := length_le_utf8Encode_length (p.take 72)
      rw [List.length_take] at h2
      omega
    conv_rhs => rw [← List.take_append_drop 72 p, utf8Encode_append]
    rw [List.take_append_of_le_length h1]

/-- Claim C10 (confirmed): for every password (list of code points) and
every bcrypt core `bc`, `verify_password(p, hash_password(p))` is true:
the character-level truncation `password[:72]` on the hash path composed
with bcrypt's 72-byte limit yields the same bytes as the verify path's
72-byte limit alone, so truncation never changes the outcome of
verification. -/
theorem password_hash_verify_roundtrip (bc : List Nat → String) (p : List Nat) :
    UserService.verify_password bc p (UserService.hash_password bc p) = true := by
  unfold UserService.verify_password UserService.hash_password
  rw [utf8_take_truncation]
  simp

/-! ### C4: verify_token rejection conditions -/

/-- A well-signed, unexpired token whose issuer differs from the
configured issuer string. -/
def evilIssuerJwt : Jwt :=
  ⟨true, true, ⟨7, 3, ["read"], "evil-issuer", 1000, 10, "access"⟩⟩

/-- The configuration the service is started with (default issuer). -/
def cfg0 : JWTConfig := ⟨"identity-service"⟩

/-- Claim C4 counterexample: a token whose issuer differs from the
configured issuer is nevertheless accepted by `verify_token` (the
adapter passes no claims options to authlib, so the `iss` claim is
never compared), refuting the claim that such tokens yield nil. -/
theorem verify_token_issuer_counterexample :
    evilIssuerJwt.claims.iss ≠ cfg0.issuer ∧
      JWTTokenService.verify_token cfg0 100 evilIssuerJwt =
        some evilIssuerJwt.claims := by
  decide

/-- Claim C4 (corrected): `verify_token` returns nil exactly on a
malformed payload, a bad signature, or an elapsed expiry (`exp < now`),
and otherwise returns the parsed claim set; the issuer is not
checked. -/
theorem verify_token_reject_characterization (cfg : JWTConfig) (now : Nat)
    (t : Jwt) :
    (JWTTokenService.verify_token cfg now t = none ↔
      (t.wellFormed = false ∨ t.sigValid = false ∨ t.claims.exp < now)) ∧
    (JWTTokenService.verify_token cfg now t = some t.claims ↔
      (t.wellFormed = true ∧ t.sigValid = true ∧ ¬t.claims.exp < now)) := by
  unfold JWTTokenService.verify_token
  rcases t with ⟨wf, sig, cl⟩
  cases wf <;> cases sig <;> by_cases h : cl.exp < now <;> simp [h]

/-! ### C9: revocation deletes the cache entry before the database row -/

/-- A stored token row. -/
def tokC9 : Token String := ⟨1, 7, 3, "at9", "Bearer", 1000, ["read"], some "rt9"⟩

/-- State with that row and a live introspection cache entry for it. -/
def sC9 : St String := ⟨[], [], [tokC9], [], [("at9", "1")]⟩

/-- Claim C9 (code bug): on this concrete input `revoke_token` finds the
stored row and its operation trace is cache delete first, database
delete second — the exact reverse of the order the claim (and the
spec's cache-coherence requirement) demands. -/
theorem revoke_token_cache_delete_first :
    (revoke_token sC9 "at9" none).1 = true ∧
      (revoke_token sC9 "at9" none).2.2 =
        [Event.cacheDelete "at9", Event.dbRevokeToken 1] := by
  decide

/-! ### C2: password grant effective scopes -/

/-- Client allowing the password grant with scope set `read`. -/
def clientC2 : Client :=
  ⟨3, "hash", ["http://cb"], ["password"], ["read"], true, true⟩

/-- An active user. -/
def userC2 : User := ⟨7, "alice", "hash", true⟩

/-- State with that client and user. -/
def sC2 : St String := ⟨[clientC2], [userC2], [], [], []⟩

/-- Claim C2 counterexample: requesting scope `admin` from a client
whose scope set is only `read` succeeds and the minted and persisted
token carries `admin` verbatim, while the claimed intersection with
`client.scopes` is empty — the source never intersects. -/
theorem password_grant_scope_counterexample :
    (let res := password_grant alwaysOk alwaysOk dummyTsvc 10 sC2
        "alice" "pw" 3 "sec" (some ["admin"])
     res.1.map (fun t => t.scopes) = some ["admin"] ∧
       res.2.tokens.map (fun t => t.scopes) = [["admin"]]) ∧
    specEffectiveScopes (some ["admin"]) clientC2.scopes = [] := by
  decide

/-- Claim C2 (corrected): on every successful password grant the
persisted and returned token's scopes are the requested list verbatim
when it is non-empty (no intersection with the client's scopes), and the
client's scopes when no scopes are requested. -/
theorem password_grant_scopes_amended
    (vs vp : String → String → Bool) (tsvc : TokenSvc String) (freshId : Nat)
    (s : St String) (username password : String) (cid : Nat) (secret : String)
    (requested : Option (List String)) (client : Client) (user : User)
    (hc : authenticate_client vs s cid secret = some client)
    (hg : client.validate_grant_type "password" = true)
    (hu : authenticate_user vp s username password = some user) :
    ∃ t, (password_grant vs vp tsvc freshId s username password cid secret
            requested).1 = some t ∧
      t.scopes = sourceEffectiveScopes requested client.scopes ∧
      (password_grant vs vp tsvc freshId s username password cid secret
          requested).2.tokens = s.tokens ++ [t] := by
  cases requested with
  | none => simp [password_grant, hc, hg, hu, sourceEffectiveScopes, createTokenSt]
  | some l =>
    by_cases hl : l = [] <;>
      simp [password_grant, hc, hg, hu, hl, sourceEffectiveScopes, createTokenSt]

/-- Witness for C2's amended theorem at a concrete input: the password
grant with requested scope list `admin` yields a token whose scopes are
exactly `admin`. -/
theorem password_grant_scopes_amended_witness :
    ∃ t, (password_grant alwaysOk alwaysOk dummyTsvc 10 sC2
            "alice" "pw" 3 "sec" (some ["admin"])).1 = some t ∧
      t.scopes = sourceEffectiveScopes (some ["admin"]) clientC2.scopes ∧
      (password_grant alwaysOk alwaysOk dummyTsvc 10 sC2
          "alice" "pw" 3 "sec" (some ["admin"])).2.tokens = sC2.tokens ++ [t] :=
  password_grant_scopes_amended alwaysOk alwaysOk dummyTsvc 10 sC2
    "alice" "pw" 3 "sec" (some ["admin"]) clientC2 userC2
    (by decide) (by decide) (by decide)

/-! ### C8: client credentials grant and confidentiality -/

/-- A public (non-confidential) but active client holding a secret hash
and authorized for the client_credentials grant. -/
def publicClientC8 : Client :=
  ⟨4, "hash", ["http://cb"], ["client_credentials"], ["api"], false, true⟩

/-- State with that client. -/
def sC8 : St String := ⟨[publicClientC8], [], [], [], []⟩

/-- Claim C8 counterexample: a client with `is_confidential = false`
that authenticates successfully and is authorized for the grant obtains
a token — the source never consults `is_confidential`, refuting the
claim that the grant fails for non-confidential clients. -/
theorem client_credentials_public_counterexample :
    publicClientC8.is_confidential = false ∧
      ((client_credentials_grant alwaysOk dummyTsvc 11 sC8 4 "sec"
          none).1).isSome = true := by
  decide

/-- Claim C8 (corrected): `client_credentials_grant` mints a token for
every authenticated client authorized for the grant type — confidential
or not (`is_confidential` is never consulted); the minted token has no
refresh token and its user id is the client id. -/
theorem client_credentials_grant_amended
    (vs : String → String → Bool) (tsvc : TokenSvc String) (freshId : Nat)
    (s : St String) (cid : Nat) (secret : String)
    (scopes : Option (List String)) (client : Client)
    (hc : authenticate_client vs s cid secret = some client)
    (hg : client.validate_grant_type "client_credentials" = true) :
    ∃ t, (client_credentials_grant vs tsvc freshId s cid secret scopes).1 =
          some t ∧
      t.refresh_token = none ∧ t.user_id = client.id ∧
      t.scopes = sourceEffectiveScopes scopes client.scopes ∧
      (client_credentials_grant vs tsvc freshId s cid secret scopes).2.tokens =
        s.tokens ++ [t] := by
  cases scopes with
  | none =>
    simp [client_credentials_grant, hc, hg, sourceEffectiveScopes, createTokenSt]
  | some l =>
    by_cases hl : l = [] <;>
      simp [client_credentials_grant, hc, hg, hl, sourceEffectiveScopes,
        createTokenSt]

/-- Witness for C8's amended theorem at a concrete input: the
non-confidential client obtains an access token with no refresh
token. -/
theorem client_credentials_grant_amended_witness :
    ∃ t, (client_credentials_grant alwaysOk dummyTsvc 11 sC8 4 "sec"
            none).1 = some t ∧
      t.refresh_token = none ∧ t.user_id = publicClientC8.id ∧
      t.scopes = sourceEffectiveScopes none publicClientC8.scopes ∧
      (client_credentials_grant alwaysOk dummyTsvc 11 sC8 4 "sec"
          none).2.tokens = sC8.tokens ++ [t] :=
  client_credentials_grant_amended alwaysOk dummyTsvc 11 sC8 4 "sec" none
    publicClientC8 (by decide) (by decide)

/-! ### C1: authorization codes are single use -/

/-- Claim C1 (confirmed, two parts): (A) when `authorization_code_grant`
succeeds for `code` (and the stored codes are pairwise id-unique per
code string), the post-state holds no row for `code` at all — the row
was marked used and then deleted; (B) on any state in which every row
for `code` is already used or expired (in particular when no row
exists), the grant returns no token and the token table is unchanged,
so every subsequent presentation of a redeemed, used, or expired code
fails and mints nothing. -/
theorem auth_code_single_use
    (vs : String → String → Bool) (sha256 : String → List Nat)
    (tsvc : TokenSvc σ) (now freshId : Nat) (s : St σ) (code : String)
    (cid : Nat) (secret redirect_uri : String) (cv : Option String)
    (huniq : ∀ a ∈ s.authCodes, ∀ b ∈ s.authCodes,
      a.code = b.code → a.id = b.id) :
    ((authorization_code_grant vs sha256 tsvc now freshId s code cid secret
          redirect_uri cv).1.isSome = true →
      ∀ a ∈ (authorization_code_grant vs sha256 tsvc now freshId s code cid
          secret redirect_uri cv).2.1.authCodes, a.code ≠ code) ∧
    ((∀ a ∈ s.authCodes, a.code = code →
        a.is_used = true ∨ now > a.expires_at) →
      (authorization_code_grant vs sha256 tsvc now freshId s code cid secret
          redirect_uri cv).1 = none ∧
      (authorization_code_grant vs sha256 tsvc now freshId s code cid secret
          redirect_uri cv).2.1.tokens = s.tokens) := by
  cases hca : authenticate_client vs s cid secret with
  | none =>
    constructor
    · intro hsucc
      simp [authorization_code_grant, hca] at hsucc
    · intro _
      simp [authorization_code_grant, hca]
  | some client =>
    by_cases hgt : client.validate_grant_type "authorization_code"
    · cases hgc : getByCode s code with
      | none =>
        have hgc' : List.find? (fun x => x.code == code) s.authCodes = none := hgc
        constructor
        · intro hsucc
          simp [authorization_code_grant, hca, hgt, hgc] at hsucc
        · intro _
          simp [authorization_code_grant, hca, hgt, hgc]
      | some ac =>
        have hgc' : List.find? (fun x => x.code == code) s.authCodes =
            some ac := hgc
        have hac_mem : ac ∈ s.authCodes := List.mem_of_find?_eq_some hgc'
        have hac_code : ac.code = code := by
          have h := List.find?_some hgc'
          simpa using h
        by_cases hexp : ac.is_expired now
        · constructor
          · intro hsucc
            simp [authorization_code_grant, hca, hgt, hgc, hexp] at hsucc
          · intro _
            simp [authorization_code_grant, hca, hgt, hgc, hexp, deleteCodeSt]
        · by_cases hused : ac.is_used
          · constructor
            · intro hsucc
              simp [authorization_code_grant, hca, hgt, hgc, hexp, hused]
                at hsucc
            · intro _
              simp [authorization_code_grant, hca, hgt, hgc, hexp, hused,
                deleteCodeSt]
          · constructor
            · intro hsucc a ha
              by_cases hcli : ac.client_id = cid
              · by_cases hru : ac.redirect_uri = redirect_uri
                · by_cases hpk : pkceGate sha256 ac cv = false
                  · simp [authorization_code_grant, hca, hgt, hgc, hexp,
                      hused, hcli, hru, hpk] at hsucc
                  · cases huid : ac.user_id with
                    | none =>
                      simp [authorization_code_grant, hca, hgt, hgc, hexp,
                        hused, hcli, hru, hpk, huid] at hsucc
                    | some uid =>
                      simp [authorization_code_grant, hca, hgt, hgc, hexp,
                        hused, hcli, hru, hpk, huid, deleteCodeSt,
                        createTokenSt, markAsUsedSt] at ha
                      obtain ⟨⟨b, hb, hfb⟩, haid⟩ := ha
                      intro hacode
                      have hbcode : b.code = code := by
                        by_cases h : b.id = ac.id
                        · rw [← hfb] at hacode
                          simpa [h] using hacode
                        · rw [← hfb] at hacode
                          simpa [h] using hacode
                      have hbid : b.id = ac.id :=
                        huniq b hb ac hac_mem (hbcode.trans hac_code.symm)
                      have haid2 : a.id = b.id := by
                        rw [← hfb]
                        simp [hbid]
                      exact haid (haid2.trans hbid)
                · simp [authorization_code_grant, hca, hgt, hgc, hexp,
                    hused, hcli, hru] at hsucc
              · simp [authorization_code_grant, hca, hgt, hgc, hexp, hused,
                  hcli] at hsucc
            · intro hdead
              rcases hdead ac hac_mem hac_code with h | h
              · exact absurd h hused
              · exact absurd h (by simpa [AuthorizationCode.is_expired]
                  using hexp)
    · constructor
      · intro hsucc
        simp [authorization_code_grant, hca, hgt] at hsucc
      · intro _
        simp [authorization_code_grant, hca, hgt]


/-- Client authorized for the authorization_code grant. -/
def clientC1 : Client :=
  ⟨3, "hash", ["http://cb"], ["authorization_code"], ["read"], true, true⟩

/-- A fresh, unused, unexpired authorization code bound to client 3 and
user 7, without PKCE. -/
def acC1 : AuthorizationCode :=
  ⟨21, "authcode1", 3, some 7, "http://cb", ["read"], none, none, 1000, false⟩

/-- State holding the client and the fresh code. -/
def sC1 : St String := ⟨[clientC1], [], [], [acC1], []⟩

/-- The concrete successful redemption of `acC1`. -/
def runC1 : Option (Token String) × St String × List (Event String) :=
  authorization_code_grant alwaysOk sha0 dummyTsvc 100 30 sC1 "authcode1" 3
    "sec" "http://cb" none

/-- The state after that successful redemption. -/
def sC1' : St String := runC1.2.1

/-- Witness for C1 at a concrete input: the redemption succeeds, the
post-state holds no row for the code, and a second presentation of the
same code fails and mints no token. -/
theorem auth_code_single_use_witness :
    runC1.1.isSome = true ∧
      (∀ a ∈ sC1'.authCodes, a.code ≠ "authcode1") ∧
      ((authorization_code_grant alwaysOk sha0 dummyTsvc 100 31 sC1'
            "authcode1" 3 "sec" "http://cb" none).1 = none ∧
        (authorization_code_grant alwaysOk sha0 dummyTsvc 100 31 sC1'
            "authcode1" 3 "sec" "http://cb" none).2.1.tokens = sC1'.tokens) :=
  ⟨by decide,
    (auth_code_single_use alwaysOk sha0 dummyTsvc 100 30 sC1 "authcode1" 3
        "sec" "http://cb" none (by decide)).1 (by decide),
    (auth_code_single_use alwaysOk sha0 dummyTsvc 100 31 sC1' "authcode1" 3
        "sec" "http://cb" none (by decide)).2 (by decide)⟩

/-! ### C5: PKCE verifier validation -/

/-- A stored code whose challenge is the empty string (non-null) with
method S256. -/
def emptyChallengeCode : AuthorizationCode :=
  ⟨1, "codeC5", 3, some 7, "http://cb", ["read"], some "", some "S256", 1000,
    false⟩

/-- A stored S256 code whose challenge is exactly the encoding of the
empty verifier's digest, so the claim's matching condition holds for
the empty verifier. -/
def s256MatchEmptyCode : AuthorizationCode :=
  ⟨5, "codeC5c", 3, some 7, "http://cb", ["read"],
    some (b64urlNopad (sha0 "")), some "S256", 1000, false⟩

/-- Claim C5 counterexample, at the redemption PKCE gate, in two parts.
(1) For a non-null but empty stored challenge with method S256, the
gate accepts every verifier (the Python guard
`if not self.code_challenge` treats the empty string like null), while
the claimed condition — base64url of the digest equals the stored
challenge — is false, since a 32-byte digest never encodes to the empty
string.  (2) For a non-empty S256 challenge equal to the encoding of
the empty verifier's digest, the gate rejects the empty verifier at the
`if not code_verifier` guard although the claimed condition holds. -/
theorem pkce_redemption_counterexample :
    (emptyChallengeCode.code_challenge = some "" ∧
      pkceGate sha0 emptyChallengeCode (some "abc") = true ∧
      ¬((emptyChallengeCode.code_challenge_method = some "S256" ∧
            b64urlNopad (sha0 "abc") = "") ∨
          (emptyChallengeCode.code_challenge_method = some "plain" ∧
            "abc" = ""))) ∧
    (s256MatchEmptyCode.code_challenge = some (b64urlNopad (sha0 "")) ∧
      s256MatchEmptyCode.code_challenge_method = some "S256" ∧
      pkceGate sha0 s256MatchEmptyCode (some "") = false) := by
  decide

/-- For every stored challenge that is non-null AND non-empty,
`validate_pkce` accepts a verifier iff the stored method is S256 and
the base64url-without-padding of the verifier's digest equals the
challenge, or the method is plain and the verifier equals the
challenge; any other method accepts nothing. -/
theorem validate_pkce_characterization (sha256 : String → List Nat)
    (ac : AuthorizationCode) (ch v : String)
    (hch : ac.code_challenge = some ch) (hne : ch ≠ "") :
    ac.validate_pkce sha256 v = true ↔
      ((ac.code_challenge_method = some "S256" ∧
          b64urlNopad (sha256 v) = ch) ∨
        (ac.code_challenge_method = some "plain" ∧ v = ch)) := by
  unfold AuthorizationCode.validate_pkce
  rw [hch]
  by_cases h1 : ac.code_challenge_method = some "S256"
  · simp [hne, h1]
  · by_cases h2 : ac.code_challenge_method = some "plain" <;> simp [hne, h1, h2]

/-- Claim C5 (corrected), stated at redemption level: for every stored
challenge that is non-null AND non-empty, (a) the redemption PKCE gate
(the `code_challenge` block of `authorization_code_grant`) accepts a
presentation iff a non-empty verifier is supplied whose method-S256
digest encoding, or method-plain bytes, equal the stored challenge —
so an absent or empty verifier is always rejected and any other stored
method accepts nothing; and (b) every redemption that returns a token
for a code bearing this challenge passed that gate. -/
theorem pkce_redemption_amended (sha256 : String → List Nat)
    (ac : AuthorizationCode) (ch : String) (cv : Option String)
    (hch : ac.code_challenge = some ch) (hne : ch ≠ "") :
    (pkceGate sha256 ac cv = true ↔
      ∃ v, cv = some v ∧ v ≠ "" ∧
        ((ac.code_challenge_method = some "S256" ∧
            b64urlNopad (sha256 v) = ch) ∨
          (ac.code_challenge_method = some "plain" ∧ v = ch))) ∧
    (∀ (σ' : Type) [DecidableEq σ'] (vs : String → String → Bool)
        (tsvc : TokenSvc σ') (now freshId : Nat) (s : St σ') (code : String)
        (cid : Nat) (secret redirect_uri : String),
      getByCode s code = some ac →
        (authorization_code_grant vs sha256 tsvc now freshId s code cid
            secret redirect_uri cv).1.isSome = true →
        pkceGate sha256 ac cv = true) := by
  constructor
  · unfold pkceGate
    rw [hch]
    dsimp only
    rw [if_neg hne]
    cases cv with
    | none => simp
    | some v =>
      by_cases hv : v = ""
      · simp [hv]
      · dsimp only
        rw [if_neg hv, validate_pkce_characterization sha256 ac ch v hch hne]
        simp [hv]
  · intro σ' _ vs tsvc now freshId s code cid secret redirect_uri hcode hsucc
    cases hca : authenticate_client vs s cid secret with
    | none => simp [authorization_code_grant, hca] at hsucc
    | some client =>
      by_cases hgt : client.validate_grant_type "authorization_code"
      · by_cases hexp : ac.is_expired now
        · simp [authorization_code_grant, hca, hgt, hcode, hexp] at hsucc
        · by_cases hused : ac.is_used
          · simp [authorization_code_grant, hca, hgt, hcode, hexp, hused]
              at hsucc
          · by_cases hcli : ac.client_id = cid
            · by_cases hru : ac.redirect_uri = redirect_uri
              · cases hpk : pkceGate sha256 ac cv with
                | false =>
                  simp [authorization_code_grant, hca, hgt, hcode, hexp,
                    hused, hcli, hru, hpk] at hsucc
                | true => rfl
              · simp [authorization_code_grant, hca, hgt, hcode, hexp,
                  hused, hcli, hru] at hsucc
            · simp [authorization_code_grant, hca, hgt, hcode, hexp, hused,
                hcli] at hsucc
      · simp [authorization_code_grant, hca, hgt] at hsucc

/-- A stored code with a plain-method, non-empty challenge. -/
def plainCodeC5 : AuthorizationCode :=
  ⟨2, "codeC5b", 3, some 7, "http://cb", ["read"], some "xyz", some "plain",
    1000, false⟩

/-- Witness for C5's amended theorem: the redemption gate accepts the
byte-identical, non-empty verifier for a plain-method challenge. -/
theorem pkce_redemption_amended_witness :
    pkceGate sha0 plainCodeC5 (some "xyz") = true :=
  (pkce_redemption_amended sha0 plainCodeC5 "xyz" (some "xyz") rfl
      (by decide)).1.mpr ⟨"xyz", rfl, by decide, Or.inr ⟨rfl, rfl⟩⟩

/-! ### C7: introspection inactivity conditions -/

/-- The composed token service for the JWT model: minting produces
well-signed tokens with this service's issuer; verification is the
embedded `JWTTokenService.verify_token` at instant 100. -/
def tsvcC7 : TokenSvc Jwt :=
  ⟨fun u c sc =>
      (⟨true, true, ⟨u, c, sc, "identity-service", 1900, 100, "access"⟩⟩, 1900),
    fun u c sc => ⟨true, true, ⟨u, c, sc, "identity-service", 2692000, 100,
      "refresh"⟩⟩,
    JWTTokenService.verify_token cfg0 100⟩

/-- A well-signed access token whose expiry instant is exactly 100. -/
def jwtC7 : Jwt := ⟨true, true, ⟨7, 3, ["read"], "identity-service", 100, 40,
  "access"⟩⟩

/-- State holding the matching token row (`expires_at = 100`) and an
empty cache. -/
def sC7 : St Jwt := ⟨[], [], [⟨1, 7, 3, jwtC7, "Bearer", 100, ["read"], none⟩],
  [], []⟩

/-- Claim C7 counterexample: with a cache miss and a stored access-token
row whose `expires_at` equals the current instant (100), introspection
reports the token ACTIVE, refuting the claim that `expires_at ≤ now` is
reported inactive: `Token.is_expired` uses strict `now > expires_at`,
and authlib's expiry validation (strict `exp < now`) likewise accepts
the boundary token. -/
theorem introspect_boundary_counterexample :
    cacheGet sC7 jwtC7 = none ∧
      (getByAccessToken sC7 jwtC7).map (fun t => t.expires_at) = some 100 ∧
      (introspect_token tsvcC7 100 sC7 jwtC7).1.isActive = true := by
  decide

/-- Claim C7 (corrected): on a cache miss, `introspect_token` returns
the inactive dict whenever the stored access-token row is absent or its
`expires_at` is STRICTLY below the current instant; a row with
`expires_at` exactly equal to now is reported active. -/
theorem introspect_inactive_amended (tsvc : TokenSvc σ) (now : Nat)
    (s : St σ) (token : σ)
    (hmiss : cacheGet s token = none)
    (hdead : getByAccessToken s token = none ∨
      ∃ te, getByAccessToken s token = some te ∧ now > te.expires_at) :
    (introspect_token tsvc now s token).1 = .inactive := by
  cases hv : tsvc.verify token with
  | none => simp [introspect_token, hmiss, hv]
  | some payload =>
    rcases hdead with h | ⟨te, hte, hexp⟩
    · simp [introspect_token, hmiss, hv, h]
    · simp [introspect_token, hmiss, hv, hte, Token.is_expired, hexp]

/-- State holding a token row that expired strictly before instant
200. -/
def sC7dead : St Jwt := ⟨[], [], [⟨2, 7, 3, jwtC7, "Bearer", 100, ["read"],
  none⟩], [], []⟩

/-- Witness for C7's amended theorem: at instant 200 the row stored in
`sC7dead` (expiry 100) is reported inactive. -/
theorem introspect_inactive_amended_witness :
    (introspect_token tsvcC7 200 sC7dead jwtC7).1 = .inactive :=
  introspect_inactive_amended tsvcC7 200 sC7dead jwtC7 (by decide)
    (Or.inr ⟨⟨2, 7, 3, jwtC7, "Bearer", 100, ["read"], none⟩, by decide,
      by decide⟩)

/-! ### C3: refresh grant does not bind the token to its issuing client -/

/-- Claim C3 (confirmed): whenever a client authenticates successfully,
is authorized for the refresh_token grant, and the presented refresh
token verifies with type "refresh" and matches a stored row, the grant
succeeds — with NO hypothesis relating the stored row's `client_id` to
the requesting client.  The stored row is deleted and the new token pair
carries the requesting client's id, with user id and scopes taken from
the refresh token's claims. -/
theorem refresh_grant_ignores_token_client
    (vs : String → String → Bool) (tsvc : TokenSvc σ) (freshId : Nat)
    (s : St σ) (r : σ) (cid : Nat) (secret : String)
    (client : Client) (payload : Claims) (existing : Token σ)
    (hc : authenticate_client vs s cid secret = some client)
    (hg : client.validate_grant_type "refresh_token" = true)
    (hv : tsvc.verify r = some payload)
    (ht : payload.typ = "refresh")
    (he : getByRefreshToken s r = some existing) :
    ∃ t, (refresh_token_grant vs tsvc freshId s r cid secret).1 = some t ∧
      t.client_id = client.id ∧ t.user_id = payload.sub ∧
      t.scopes = payload.scopes ∧
      (refresh_token_grant vs tsvc freshId s r cid secret).2.1.tokens =
        s.tokens.filter (fun tk => tk.id ≠ existing.id) ++ [t] := by
  simp [refresh_token_grant, hc, hg, hv, ht, he, createTokenSt, revokeTokenSt]

/-- Requesting client B, distinct from the client the stored token was
issued to. -/
def clientBC3 : Client :=
  ⟨3, "hashB", ["http://cb"], ["refresh_token"], ["read"], true, true⟩

/-- A stored token row issued to client 5 (not client 3). -/
def oldTokC3 : Token String :=
  ⟨9, 7, 5, "oldAccess", "Bearer", 500, ["read"], some "oldRefresh"⟩

/-- State with client B and client 5's token row. -/
def sC3 : St String := ⟨[clientBC3], [], [oldTokC3], [], []⟩

/-- Token service whose verification accepts exactly the stored refresh
token, revealing claims minted for client 5. -/
def tsvcC3 : TokenSvc String :=
  ⟨fun _ _ _ => ("newAccess", 900), fun _ _ _ => "newRefresh",
    fun r => if r = "oldRefresh" then
        some ⟨7, 5, ["read"], "identity-service", 999, 1, "refresh"⟩
      else none⟩

/-- Witness for C3 at a concrete input: client 3 redeems the refresh
token issued to client 5; the row is deleted and the new token belongs
to client 3. -/
theorem refresh_grant_ignores_token_client_witness :
    oldTokC3.client_id ≠ clientBC3.id ∧
      ∃ t, (refresh_token_grant alwaysOk tsvcC3 20 sC3 "oldRefresh" 3
              "sec").1 = some t ∧
        t.client_id = clientBC3.id ∧ t.user_id = 7 ∧ t.scopes = ["read"] ∧
        (refresh_token_grant alwaysOk tsvcC3 20 sC3 "oldRefresh" 3
            "sec").2.1.tokens =
          sC3.tokens.filter (fun tk => tk.id ≠ oldTokC3.id) ++ [t] :=
  ⟨by decide,
    refresh_grant_ignores_token_client alwaysOk tsvcC3 20 sC3 "oldRefresh" 3
      "sec" clientBC3 ⟨7, 5, ["read"], "identity-service", 999, 1, "refresh"⟩
      oldTokC3 (by decide) (by decide) (by decide) (by decide) (by decide)⟩

/-! ### C6: refresh rotation deletes the old row before writing the new -/

/-- Claim C6 (confirmed): in a successful refresh grant the operation
trace is exactly database-revoke of the old row followed by
database-create of the new row; provided the stored refresh token is
unique to the old row and the freshly minted refresh string differs from
the presented one, the post-state holds no row for the old refresh
token; and on any state holding no row for it, a refresh grant
presenting it returns failure and leaves the state unchanged. -/
theorem refresh_rotation_order
    (vs : String → String → Bool) (tsvc : TokenSvc σ) (freshId : Nat)
    (s : St σ) (r : σ) (cid : Nat) (secret : String)
    (client : Client) (payload : Claims) (existing : Token σ)
    (hc : authenticate_client vs s cid secret = some client)
    (hg : client.validate_grant_type "refresh_token" = true)
    (hv : tsvc.verify r = some payload)
    (ht : payload.typ = "refresh")
    (he : getByRefreshToken s r = some existing)
    (huniq : ∀ tk ∈ s.tokens, tk.refresh_token = some r → tk.id = existing.id)
    (hnew : tsvc.createRefresh payload.sub client.id payload.scopes ≠ r) :
    (refresh_token_grant vs tsvc freshId s r cid secret).2.2 =
        [Event.dbRevokeToken existing.id, Event.dbCreateToken freshId] ∧
      getByRefreshToken (refresh_token_grant vs tsvc freshId s r cid
          secret).2.1 r = none ∧
      ∀ (vs' : String → String → Bool) (tsvc' : TokenSvc σ)
        (freshId' cid' : Nat) (secret' : String) (s' : St σ),
        getByRefreshToken s' r = none →
          refresh_token_grant vs' tsvc' freshId' s' r cid' secret' =
            (none, s', []) := by
  refine ⟨?_, ?_, ?_⟩
  · simp [refresh_token_grant, hc, hg, hv, ht, he]
  · have he' : List.find? (fun t => t.refresh_token == some r) s.tokens =
        some existing := he
    simp [refresh_token_grant, hc, hg, hv, ht, he', createTokenSt,
      revokeTokenSt, getByRefreshToken]
    refine ⟨?_, hnew⟩
    intro x hx hid hr
    exact hid (huniq x hx hr)
  · intro vs' tsvc' freshId' cid' secret' s' habs
    cases hca : authenticate_client vs' s' cid' secret' with
    | none => simp [refresh_token_grant, hca]
    | some c =>
      by_cases hgt : c.validate_grant_type "refresh_token"
      · cases hvv : tsvc'.verify r with
        | none => simp [refresh_token_grant, hca, hgt, hvv]
        | some p =>
          by_cases htt : p.typ = "refresh" <;>
            simp [refresh_token_grant, hca, hgt, hvv, htt, habs]
      · simp [refresh_token_grant, hca, hgt]

/-- The post-state of the concrete rotation of C3's fixtures. -/
def postC6 : St String :=
  (refresh_token_grant alwaysOk tsvcC3 20 sC3 "oldRefresh" 3 "sec").2.1

/-- Witness for C6 at a concrete input: the trace is revoke-then-create,
the rotated state holds no row for the old refresh token, and a second
presentation of it fails without touching the state. -/
theorem refresh_rotation_order_witness :
    (refresh_token_grant alwaysOk tsvcC3 20 sC3 "oldRefresh" 3 "sec").2.2 =
        [Event.dbRevokeToken 9, Event.dbCreateToken 20] ∧
      getByRefreshToken postC6 "oldRefresh" = none ∧
      refresh_token_grant alwaysOk tsvcC3 21 postC6 "oldRefresh" 3 "sec" =
        (none, postC6, []) := by
  have h := refresh_rotation_order alwaysOk tsvcC3 20 sC3 "oldRefresh" 3 "sec"
    clientBC3 ⟨7, 5, ["read"], "identity-service", 999, 1, "refresh"⟩ oldTokC3
    (by decide) (by decide) (by decide) (by decide) (by decide)
    (by decide) (by decide)
  exact ⟨h.1, h.2.1, h.2.2 alwaysOk tsvcC3 21 3 "sec" postC6 h.2.1⟩

end IdentityService
